import Mathlib

/-!
Verification of the login & consent orchestration subsystem of an OAuth 2.0
authorization server (ORY Hydra).  The source tree ships the test suites
(`consent/manager_test.go`, `consent/strategy_default_test.go`), the JWK REST
handler (`jwk/handler.go`) and the signing-key provisioning helper
(`cmd/server/helper_keys.go`); the consent store and the OIDC strategy proper
are not part of the tree, so those operations are modelled from the
specification (sections 4.2, 4.5, 4.6 of the spec) and checked against the
behaviour the shipped tests demand.
-/

set_option autoImplicit false

namespace Hydra

/-- A previously-stored denial, as on the handled records
(`RequestDeniedError` in the source). -/
structure RequestDeniedError where
  name : String
  description : String
  hint : String
  code : Nat
  debug : String
deriving Repr, DecidableEq

/-- An authentication ("login") request as minted by the strategy
(`AuthenticationRequest` in the source). -/
structure AuthenticationRequest where
  challenge : String
  verifier : String
  clientId : String
  requestedScope : List String
  subject : String
  skip : Bool
  csrf : String
deriving Repr, DecidableEq

/-- The login provider's decision on an authentication request
(`HandledAuthenticationRequest` in the source). -/
structure HandledAuthenticationRequest where
  challenge : String
  subject : String
  acr : String
  remember : Bool
  rememberFor : Nat
  error : Option RequestDeniedError
  wasUsed : Bool
deriving Repr, DecidableEq

/-- A consent request; mirrors the authentication request with a
back-pointer to the login challenge (`ConsentRequest` in the source). -/
structure ConsentRequest where
  challenge : String
  verifier : String
  clientId : String
  loginChallenge : String
  requestedScope : List String
  subject : String
  skip : Bool
  csrf : String
deriving Repr, DecidableEq

/-- The opaque session payload carried on an accepted consent
(`ConsentRequestSessionData` in the source): claims for the access token and
the ID token. -/
structure ConsentRequestSessionData where
  accessToken : List (String × String)
  idToken : List (String × String)
deriving Repr, DecidableEq

/-- The consent provider's decision (`HandledConsentRequest` in the source). -/
structure HandledConsentRequest where
  challenge : String
  grantedScope : List String
  remember : Bool
  rememberFor : Nat
  session : ConsentRequestSessionData
  error : Option RequestDeniedError
  wasUsed : Bool
deriving Repr, DecidableEq

/-- A long-lived authentication session bound to the browser cookie
(`AuthenticationSession` in the source). Times are seconds since epoch. -/
structure AuthenticationSession where
  id : String
  subject : String
  authenticatedAt : Nat
deriving Repr, DecidableEq

/-- A remembered consent grant, the denormalized view used for the
skip-consent decision (spec section 3, PreviouslyGrantedConsent). -/
structure PreviouslyGrantedConsent where
  clientId : String
  subject : String
  grantedScope : List String
  rememberFor : Nat
  grantedAt : Nat
deriving Repr, DecidableEq

/-- Store-level errors (spec section 4.2: all errors are NotFound or
storage failures; storage failures do not occur in the model). -/
inductive StoreError where
  | notFound
deriving Repr, DecidableEq

/-- Equality of fallible results is decidable, so witnesses can be checked by
evaluation. -/
instance {ε α : Type} [DecidableEq ε] [DecidableEq α] : DecidableEq (Except ε α)
  | .error x, .error y =>
    if h : x = y then .isTrue (congrArg Except.error h)
    else .isFalse (fun hc => h (Except.error.inj hc))
  | .error _, .ok _ => .isFalse (fun hc => Except.noConfusion hc)
  | .ok _, .error _ => .isFalse (fun hc => Except.noConfusion hc)
  | .ok x, .ok y =>
    if h : x = y then .isTrue (congrArg Except.ok h)
    else .isFalse (fun hc => h (Except.ok.inj hc))

/-- The consent store state (`Manager` in the source: requests, handled
outcomes, sessions and previously granted consents). -/
structure Manager where
  authRequests : List AuthenticationRequest
  handledAuthRequests : List HandledAuthenticationRequest
  consentRequests : List ConsentRequest
  handledConsentRequests : List HandledConsentRequest
  authSessions : List AuthenticationSession
  grants : List PreviouslyGrantedConsent
deriving Repr, DecidableEq

/-- The empty store. -/
def Manager.empty : Manager :=
  { authRequests := [], handledAuthRequests := [], consentRequests := [],
    handledConsentRequests := [], authSessions := [], grants := [] }

/-- Modelled from the spec: `GetAuthenticationRequest(challenge)` returns the
request only, `NotFound` if unknown (spec section 4.2; implementation of the
store is not under src/, only `consent/manager_test.go`). -/
def getAuthenticationRequest (challenge : String) (m : Manager) :
    Except StoreError AuthenticationRequest :=
  match m.authRequests.find? (fun r => r.challenge == challenge) with
  | none => .error .notFound
  | some r => .ok r

/-- Modelled from the spec: `GetConsentRequest(challenge)` (spec section 4.2). -/
def getConsentRequest (challenge : String) (m : Manager) :
    Except StoreError ConsentRequest :=
  match m.consentRequests.find? (fun r => r.challenge == challenge) with
  | none => .error .notFound
  | some r => .ok r

/-- Marks every handled authentication record for the given challenge as used. -/
def invalidateAuth (challenge : String) (m : Manager) : Manager :=
  let upd := fun (h : HandledAuthenticationRequest) =>
    if h.challenge == challenge then { h with wasUsed := true } else h
  { m with handledAuthRequests := m.handledAuthRequests.map upd }

/-- Marks every handled consent record for the given challenge as used. -/
def invalidateConsent (challenge : String) (m : Manager) : Manager :=
  let upd := fun (h : HandledConsentRequest) =>
    if h.challenge == challenge then { h with wasUsed := true } else h
  { m with handledConsentRequests := m.handledConsentRequests.map upd }

/-- Modelled from the spec: `VerifyAndInvalidateAuthenticationRequest(verifier)`
in a single atomic step looks up by verifier, requires the handled record to
exist with `was_used=false`, sets `was_used=true` and returns the
request+handled record; any deviation fails with `NotFound` (spec section 4.2;
behaviour exercised in `consent/manager_test.go`). -/
def verifyAndInvalidateAuthenticationRequest (verifier : String) (m : Manager) :
    Except StoreError (AuthenticationRequest × HandledAuthenticationRequest × Manager) :=
  match m.authRequests.find? (fun r => r.verifier == verifier) with
  | none => .error .notFound
  | some r =>
    match m.handledAuthRequests.find? (fun h => h.challenge == r.challenge) with
    | none => .error .notFound
    | some h =>
      if h.wasUsed then .error .notFound
      else .ok (r, { h with wasUsed := true }, invalidateAuth r.challenge m)

/-- Modelled from the spec: `VerifyAndInvalidateConsentRequest(verifier)`
(spec section 4.2; behaviour exercised in `consent/manager_test.go`). -/
def verifyAndInvalidateConsentRequest (verifier : String) (m : Manager) :
    Except StoreError (ConsentRequest × HandledConsentRequest × Manager) :=
  match m.consentRequests.find? (fun r => r.verifier == verifier) with
  | none => .error .notFound
  | some r =>
    match m.handledConsentRequests.find? (fun h => h.challenge == r.challenge) with
    | none => .error .notFound
    | some h =>
      if h.wasUsed then .error .notFound
      else .ok (r, { h with wasUsed := true }, invalidateConsent r.challenge m)

/-- Modelled from the spec: `FindPreviouslyGrantedConsentRequests(client_id,
subject)` returns the set of still-valid granted consents, discarding entries
whose `remember_for` has elapsed; `remember_for=0` entries never expire (spec
sections 4.2 and 9; the store implementation is not under src/, only
`consent/manager_test.go`). -/
def findPreviouslyGrantedConsentRequests (clientId subject : String) (now : Nat)
    (m : Manager) : List PreviouslyGrantedConsent :=
  m.grants.filter (fun g =>
    g.clientId == clientId && g.subject == subject &&
      (g.rememberFor == 0 || Nat.ble now (g.grantedAt + g.rememberFor)))

/-- A concrete authentication request, mirroring `mockAuthRequest` in
`consent/manager_test.go`. -/
def exampleAuthRequest : AuthenticationRequest :=
  { challenge := "challenge1", verifier := "verifier1", clientId := "client1",
    requestedScope := ["scopea1", "scopeb1"], subject := "subject1",
    skip := true, csrf := "csrf1" }

/-- A concrete handled authentication record for `exampleAuthRequest`. -/
def exampleHandledAuth : HandledAuthenticationRequest :=
  { challenge := "challenge1", subject := "subject1", acr := "acr",
    remember := true, rememberFor := 120, error := none, wasUsed := false }

/-- A concrete consent request, mirroring `mockConsentRequest` in
`consent/manager_test.go`. -/
def exampleConsentRequest : ConsentRequest :=
  { challenge := "cchallenge1", verifier := "cverifier1", clientId := "client1",
    loginChallenge := "challenge1", requestedScope := ["scopea1", "scopeb1"],
    subject := "subject1", skip := false, csrf := "csrf2" }

/-- A concrete handled consent record for `exampleConsentRequest`. -/
def exampleHandledConsent : HandledConsentRequest :=
  { challenge := "cchallenge1", grantedScope := ["scopea1"], remember := true,
    rememberFor := 0,
    session := { accessToken := [("foo", "bar")], idToken := [("bar", "baz")] },
    error := none, wasUsed := false }

/-- A concrete store holding one pending login and one pending consent flow. -/
def exampleManager : Manager :=
  { authRequests := [exampleAuthRequest],
    handledAuthRequests := [exampleHandledAuth],
    consentRequests := [exampleConsentRequest],
    handledConsentRequests := [exampleHandledConsent],
    authSessions := [], grants := [] }

/-- A remembered grant with `remember_for = 0`: never expires. -/
def exampleGrantFresh : PreviouslyGrantedConsent :=
  { clientId := "client1", subject := "subject1", grantedScope := ["scopea1"],
    rememberFor := 0, grantedAt := 100 }

/-- A remembered grant with `remember_for = 1` granted at time 100: expired at
time 200. -/
def exampleGrantExpired : PreviouslyGrantedConsent :=
  { clientId := "client1", subject := "subject1", grantedScope := ["scopeb1"],
    rememberFor := 1, grantedAt := 100 }

/-- A store holding one fresh and one expired grant. -/
def exampleGrantManager : Manager :=
  { Manager.empty with grants := [exampleGrantFresh, exampleGrantExpired] }

/-- Errors surfaced by the management API (`ConsentAPI`); spec section 4.6. -/
inductive ApiError where
  | notFound
  | badRequest
deriving Repr, DecidableEq

/-- HTTP status code of a management API error. -/
def ApiError.statusCode : ApiError → Nat
  | .notFound => 404
  | .badRequest => 400

/-- Body of `PUT /oauth2/auth/requests/login/{challenge}/accept`
(`AcceptLoginRequest` in the SDK). -/
structure AcceptLoginRequest where
  subject : String
  remember : Bool
  rememberFor : Nat
  acr : String
deriving Repr, DecidableEq

/-- Body of `PUT /oauth2/auth/requests/consent/{challenge}/accept`
(`AcceptConsentRequest` in the SDK; its grant_scope should be a subset of
requested_scope, see `src/unnamed/part_000`). -/
structure AcceptConsentRequest where
  grantScope : List String
  remember : Bool
  rememberFor : Nat
  session : ConsentRequestSessionData
deriving Repr, DecidableEq

/-- Inserts-or-replaces the handled login record for its challenge
(spec section 4.2, `HandleAuthenticationRequest`). -/
def putHandledAuth (h : HandledAuthenticationRequest) (m : Manager) : Manager :=
  { m with handledAuthRequests :=
      h :: m.handledAuthRequests.filter (fun x => !(x.challenge == h.challenge)) }

/-- Inserts-or-replaces the handled consent record for its challenge
(spec section 4.2, `HandleConsentRequest`). -/
def putHandledConsent (h : HandledConsentRequest) (m : Manager) : Manager :=
  { m with handledConsentRequests :=
      h :: m.handledConsentRequests.filter (fun x => !(x.challenge == h.challenge)) }

/-- The handled login record produced by an accept call. -/
def mkHandledLogin (challenge : String) (p : AcceptLoginRequest) :
    HandledAuthenticationRequest :=
  { challenge := challenge, subject := p.subject, acr := p.acr,
    remember := p.remember, rememberFor := p.rememberFor, error := none,
    wasUsed := false }

/-- The handled consent record produced by an accept call. -/
def mkHandledConsent (challenge : String) (p : AcceptConsentRequest) :
    HandledConsentRequest :=
  { challenge := challenge, grantedScope := p.grantScope,
    remember := p.remember, rememberFor := p.rememberFor,
    session := p.session, error := none, wasUsed := false }

/-- Modelled from the spec: the accept endpoint
`PUT /oauth2/auth/requests/login/{challenge}/accept` (spec section 4.6).
Accepting with `subject != request.subject` while `request.skip=true` MUST
fail with 400, and `skip=true` with `remember=true` is rejected at accept
time (spec section 8); otherwise the handled record is stored and an absolute
`redirect_to` back to the authorize endpoint is returned. The handler itself
is not under src/, only `consent/strategy_default_test.go`. -/
def acceptLoginRequest (challenge : String) (p : AcceptLoginRequest) (m : Manager) :
    Except ApiError (String × Manager) :=
  match getAuthenticationRequest challenge m with
  | .error _ => .error .notFound
  | .ok r =>
    if r.skip && !(p.subject == r.subject) then .error .badRequest
    else if r.skip && p.remember then .error .badRequest
    else .ok ("/oauth2/auth?login_verifier=" ++ r.verifier,
        putHandledAuth (mkHandledLogin challenge p) m)

/-- Modelled from the spec: the accept endpoint
`PUT /oauth2/auth/requests/consent/{challenge}/accept` (spec sections 4.6
and 8: `skip=true` with `remember=true` is rejected at accept time). -/
def acceptConsentRequest (challenge : String) (p : AcceptConsentRequest) (m : Manager) :
    Except ApiError (String × Manager) :=
  match getConsentRequest challenge m with
  | .error _ => .error .notFound
  | .ok r =>
    if r.skip && p.remember then .error .badRequest
    else .ok ("/oauth2/auth?consent_verifier=" ++ r.verifier,
        putHandledConsent (mkHandledConsent challenge p) m)

/-- OAuth-level errors surfaced by the strategy (spec section 7). The store's
NotFound deliberately has no constructor here: it is internally caught and
mapped to `accessDenied` when a verifier is unknown. -/
inductive OAuthError where
  | accessDenied
  | loginRequired
  | consentRequired
  | requestForbidden
  | badRequest
  | denied (e : RequestDeniedError)
deriving Repr, DecidableEq

/-- Outcome of `HandleOAuth2AuthorizationRequest` (spec section 4.5): a
redirect to the login or consent UI (the `ErrAbortOAuth2Request` sentinel),
the completed consent handed back to the OAuth framework, or an OAuth error. -/
inductive FlowResult where
  | redirectToLogin (r : AuthenticationRequest)
  | redirectToConsent (c : ConsentRequest)
  | completed (r : ConsentRequest) (h : HandledConsentRequest)
  | failed (e : OAuthError)
deriving Repr, DecidableEq

/-- Fresh opaque values produced by the challenge mint for one pass through
the strategy (spec section 4.3); kept abstract as inputs. -/
structure Mint where
  loginChallenge : String
  loginVerifier : String
  loginCsrf : String
  consentChallenge : String
  consentVerifier : String
  consentCsrf : String
  sessionId : String
deriving Repr, DecidableEq

/-- The inputs the strategy considers (spec section 4.5): the framework's
authorize request plus the raw query parameters and the decrypted cookies.
An absent `login_verifier`/`consent_verifier` query parameter is the empty
string, as in the Go handler. -/
structure AuthorizeInput where
  clientId : String
  clientPublic : Bool
  scopes : List String
  responseTypes : List String
  redirectSchemeHTTPS : Bool
  loginVerifier : String
  consentVerifier : String
  prompt : List String
  maxAge : Option Nat
  idTokenHintSub : Option String
  sessionCookie : Option AuthenticationSession
  loginCsrfCookie : Option String
  consentCsrfCookie : Option String
deriving Repr, DecidableEq

/-- Scope inclusion: every element of `a` occurs in `b`. -/
def scopeSubset (a b : List String) : Bool :=
  a.all (fun s => b.contains s)

/-- Modelled from the spec: the skip-consent decision (spec section 4.5 step
4): requested scopes are a subset of the union of previously granted
unexpired scopes, `prompt` does not contain `consent`, and the response type
is `code` only. -/
def computeSkipConsent (inp : AuthorizeInput) (subject : String) (now : Nat)
    (m : Manager) : Bool :=
  let valid := findPreviouslyGrantedConsentRequests inp.clientId subject now m
  scopeSubset inp.scopes (valid.map (fun g => g.grantedScope)).flatten
    && !(inp.prompt.contains "consent") && inp.responseTypes == ["code"]

/-- Inserts-or-replaces an authentication session by id (spec section 4.2,
`CreateAuthenticationSession`). -/
def upsertAuthSession (s : AuthenticationSession) (m : Manager) : Manager :=
  { m with authSessions := s :: m.authSessions.filter (fun x => !(x.id == s.id)) }

/-- Modelled from the spec: the `RequireLogin` state (spec section 4.5 step
2). Determines `skip`, fails `ErrLoginRequired` for the `prompt=none`
policy violations, otherwise persists a fresh `AuthenticationRequest` and
redirects the browser to the login UI. The strategy implementation is not
under src/, only `consent/strategy_default_test.go`. -/
def requireLogin (inp : AuthorizeInput) (mint : Mint) (now : Nat) (m : Manager) :
    FlowResult × Manager :=
  let subject := match inp.sessionCookie with
    | some s => s.subject
    | none => ""
  let forcedByMaxAge := match inp.sessionCookie, inp.maxAge with
    | some s, some ma => Nat.blt ma (now - s.authenticatedAt)
    | _, _ => false
  let forcedByHint := match inp.sessionCookie, inp.idTokenHintSub with
    | some s, some sub => !(s.subject == sub)
    | _, _ => false
  if forcedByMaxAge && inp.prompt.contains "none" then (.failed .loginRequired, m)
  else if forcedByHint && inp.prompt.contains "none" then (.failed .loginRequired, m)
  else if inp.prompt.contains "none" && inp.sessionCookie.isNone then
    (.failed .loginRequired, m)
  else
    let skip := inp.sessionCookie.isSome && !forcedByMaxAge && !forcedByHint
        && !(inp.prompt.contains "login")
    let r : AuthenticationRequest :=
      { challenge := mint.loginChallenge, verifier := mint.loginVerifier,
        clientId := inp.clientId, requestedScope := inp.scopes,
        subject := subject, skip := skip, csrf := mint.loginCsrf }
    (.redirectToLogin r, { m with authRequests := r :: m.authRequests })

/-- Modelled from the spec: the `RequireConsent` state (spec section 4.5 step
4). Computes `skip_consent`, fails `ErrConsentRequired` for the
`prompt=none` policy violations, otherwise persists a fresh `ConsentRequest`
and redirects the browser to the consent UI. -/
def requireConsent (inp : AuthorizeInput) (mint : Mint) (now : Nat)
    (subject loginChallenge : String) (m : Manager) : FlowResult × Manager :=
  let skipC := computeSkipConsent inp subject now m
  if inp.prompt.contains "none" && !skipC then (.failed .consentRequired, m)
  else if inp.prompt.contains "none" && inp.clientPublic
      && !inp.redirectSchemeHTTPS then (.failed .consentRequired, m)
  else
    let c : ConsentRequest :=
      { challenge := mint.consentChallenge, verifier := mint.consentVerifier,
        clientId := inp.clientId, loginChallenge := loginChallenge,
        requestedScope := inp.scopes, subject := subject, skip := skipC,
        csrf := mint.consentCsrf }
    (.redirectToConsent c, { m with consentRequests := c :: m.consentRequests })

/-- Modelled from the spec: the `LoginReturn` state (spec section 4.5 step
3). Verifies and invalidates the login verifier (an unknown verifier's
NotFound becomes `accessDenied`, spec section 7), validates CSRF, converts a
stored denial, re-checks the identity invariants on skipped logins and the
id_token_hint binding, upserts the remembered session, then proceeds to
`RequireConsent`. -/
def loginReturn (inp : AuthorizeInput) (mint : Mint) (now : Nat) (m : Manager) :
    FlowResult × Manager :=
  match verifyAndInvalidateAuthenticationRequest inp.loginVerifier m with
  | .error _ => (.failed .accessDenied, m)
  | .ok (r, h, m1) =>
    if !(inp.loginCsrfCookie == some r.csrf) then (.failed .requestForbidden, m1)
    else
      match h.error with
      | some e => (.failed (.denied e), m1)
      | none =>
        if r.skip && !(h.subject == r.subject) then (.failed .badRequest, m1)
        else if r.skip && h.remember then (.failed .badRequest, m1)
        else
          let hintOk := match inp.idTokenHintSub with
            | some sub => h.subject == sub
            | none => true
          if !hintOk then (.failed .loginRequired, m1)
          else
            let m2 := if h.remember then
                upsertAuthSession
                  { id := mint.sessionId, subject := h.subject,
                    authenticatedAt := now } m1
              else m1
            requireConsent inp mint now h.subject r.challenge m2

/-- Modelled from the spec: the `ConsentReturn` state (spec section 4.5 step
5). Verifies and invalidates the consent verifier (NotFound becomes
`accessDenied`), validates CSRF, enforces `granted_scope ⊆ requested_scope`
and `skip=true ⇒ remember=false`, converts a stored denial, persists the
grant for future skip decisions, and returns the handled consent to the
OAuth framework. -/
def consentReturn (inp : AuthorizeInput) (now : Nat) (m : Manager) :
    FlowResult × Manager :=
  match verifyAndInvalidateConsentRequest inp.consentVerifier m with
  | .error _ => (.failed .accessDenied, m)
  | .ok (r, h, m1) =>
    if !(inp.consentCsrfCookie == some r.csrf) then (.failed .requestForbidden, m1)
    else if !(scopeSubset h.grantedScope r.requestedScope) then
      (.failed .badRequest, m1)
    else if r.skip && h.remember then (.failed .badRequest, m1)
    else
      match h.error with
      | some e => (.failed (.denied e), m1)
      | none =>
        let m2 := if h.remember then
            { m1 with grants :=
                { clientId := r.clientId, subject := r.subject,
                  grantedScope := h.grantedScope, rememberFor := h.rememberFor,
                  grantedAt := now } :: m1.grants }
          else m1
        (.completed r h, m2)

/-- Modelled from the spec: the entry point
`HandleOAuth2AuthorizationRequest` (spec section 4.5, `Start` state): neither
verifier → `RequireLogin`; `consent_verifier` only → `accessDenied` (consent
without login); `login_verifier` only → `LoginReturn`; both →
`ConsentReturn`. -/
def handleOAuth2AuthorizationRequest (inp : AuthorizeInput) (mint : Mint)
    (now : Nat) (m : Manager) : FlowResult × Manager :=
  if inp.loginVerifier == "" && inp.consentVerifier == "" then
    requireLogin inp mint now m
  else if inp.loginVerifier == "" then (.failed .accessDenied, m)
  else if inp.consentVerifier == "" then loginReturn inp mint now m
  else consentReturn inp now m

/-- A skipped login request: the store already believes `subject1` is
authenticated. -/
def exampleSkippedAuthRequest : AuthenticationRequest :=
  { exampleAuthRequest with
    challenge := "challenge2", verifier := "verifier2", skip := true }

/-- A skipped consent request. -/
def exampleSkippedConsentRequest : ConsentRequest :=
  { exampleConsentRequest with
    challenge := "cchallenge2", verifier := "cverifier2", skip := true }

/-- A handled record that (illegally) sets remember on the skipped login. -/
def exampleSkipHandledAuth : HandledAuthenticationRequest :=
  { challenge := "challenge2", subject := "subject1", acr := "acr",
    remember := true, rememberFor := 0, error := none, wasUsed := false }

/-- A handled record that (illegally) sets remember on the skipped consent. -/
def exampleSkipHandledConsent : HandledConsentRequest :=
  { challenge := "cchallenge2", grantedScope := ["scopea1"], remember := true,
    rememberFor := 0, session := { accessToken := [], idToken := [] },
    error := none, wasUsed := false }

/-- A store holding one skipped login and one skipped consent request,
together with handled records that (illegally) set remember on them. -/
def exampleSkipManager : Manager :=
  { Manager.empty with
    authRequests := [exampleSkippedAuthRequest],
    handledAuthRequests := [exampleSkipHandledAuth],
    consentRequests := [exampleSkippedConsentRequest],
    handledConsentRequests := [exampleSkipHandledConsent] }

/-- Strategy input presenting the skipped login verifier with a valid CSRF
cookie. -/
def exampleSkipLoginInput : AuthorizeInput :=
  { clientId := "client1", clientPublic := false, scopes := ["scopea1", "scopeb1"],
    responseTypes := ["code"], redirectSchemeHTTPS := true,
    loginVerifier := "verifier2", consentVerifier := "",
    prompt := [], maxAge := none, idTokenHintSub := none,
    sessionCookie := none, loginCsrfCookie := some "csrf1",
    consentCsrfCookie := none }

/-- Strategy input presenting the skipped consent verifier with a valid CSRF
cookie. -/
def exampleSkipConsentInput : AuthorizeInput :=
  { exampleSkipLoginInput with
    loginVerifier := "used", consentVerifier := "cverifier2",
    consentCsrfCookie := some "csrf2" }

/-- A fixed mint for witnesses. -/
def exampleMint : Mint :=
  { loginChallenge := "lc", loginVerifier := "lv", loginCsrf := "lcsrf",
    consentChallenge := "cc", consentVerifier := "cv", consentCsrf := "ccsrf",
    sessionId := "sid" }

/-- An accept body naming a subject other than the skipped request's. -/
def exampleAcceptMismatch : AcceptLoginRequest :=
  { subject := "fooser", remember := false, rememberFor := 0, acr := "1" }

/-- An accept body naming the skipped request's own subject. -/
def exampleAcceptMatch : AcceptLoginRequest :=
  { subject := "subject1", remember := false, rememberFor := 0, acr := "1" }

/-- Input carrying a login verifier unknown to the store. -/
def exampleInvalidLoginInput : AuthorizeInput :=
  { exampleSkipLoginInput with loginVerifier := "invalid" }

/-- Input carrying a consent verifier unknown to the store. -/
def exampleInvalidConsentInput : AuthorizeInput :=
  { exampleSkipLoginInput with
    loginVerifier := "used", consentVerifier := "invalid" }

/-- Input carrying a consent verifier but no login verifier. -/
def exampleConsentOnlyInput : AuthorizeInput :=
  { exampleSkipLoginInput with
    loginVerifier := "", consentVerifier := "invalid" }

/-- Input with prompt=none and an empty cookie jar. -/
def examplePromptNoneInput : AuthorizeInput :=
  { exampleSkipLoginInput with
    loginVerifier := "", prompt := ["none"], sessionCookie := none }

/-- The remembered session, authenticated at time 100. -/
def exampleSession : AuthenticationSession :=
  { id := "sid", subject := "subject1", authenticatedAt := 100 }

/-- Input with max_age=1 and a session authenticated 900 seconds before now. -/
def exampleMaxAgeInput : AuthorizeInput :=
  { exampleSkipLoginInput with
    loginVerifier := "", maxAge := some 1, sessionCookie := some exampleSession }

/-- The same input with prompt=none. -/
def exampleMaxAgeNoneInput : AuthorizeInput :=
  { exampleMaxAgeInput with prompt := ["none"] }

/-- A remembered grant of scopea1 and scopeb1 for client1/subject1. -/
def exampleWideGrant : PreviouslyGrantedConsent :=
  { clientId := "client1", subject := "subject1",
    grantedScope := ["scopea1", "scopeb1"], rememberFor := 0, grantedAt := 100 }

/-- A store remembering `exampleWideGrant`. -/
def exampleGrantedManager : Manager :=
  { Manager.empty with grants := [exampleWideGrant] }

/-- Strategy input returning from the consent UI for the pending consent flow
of `exampleManager`, with a valid CSRF cookie. -/
def exampleConsentReturnInput : AuthorizeInput :=
  { clientId := "client1", clientPublic := false, scopes := ["scopea1"],
    responseTypes := ["code"], redirectSchemeHTTPS := true,
    loginVerifier := "used", consentVerifier := "cverifier1",
    prompt := [], maxAge := none, idTokenHintSub := none,
    sessionCookie := none, loginCsrfCookie := none,
    consentCsrfCookie := some "csrf2" }

/-- The store after the completed consent return of the witness flow. -/
def exampleCompletedManager : Manager :=
  (handleOAuth2AuthorizationRequest exampleConsentReturnInput exampleMint 1000
    exampleManager).2

/-- A JSON Web Key: key id and intended use (`jose.JSONWebKey`, restricted to
the fields the provisioning helper touches). -/
structure JWK where
  kid : String
  use : String
deriving Repr, DecidableEq

/-- A named JSON Web Key set (`jose.JSONWebKeySet`). -/
structure JSONWebKeySet where
  keys : List JWK
deriving Repr, DecidableEq

/-- The key store: named key sets (`jwk.Manager`). -/
abbrev KeyStore : Type := List (String × JSONWebKeySet)

/-- Modelled from the spec: `GetKeySet(set)`; `NotFound` if the set is
unknown (spec section 4.1; the jwk manager is not under src/, only its REST
handler `jwk/handler.go`). -/
def getKeySet (set : String) (ks : KeyStore) : Except StoreError JSONWebKeySet :=
  match ks.find? (fun p => p.1 == set) with
  | none => .error .notFound
  | some p => .ok p.2

/-- Modelled from the spec: `AddKeySet(set, jwks)` persists the set
atomically (spec section 4.1). -/
def addKeySet (set : String) (s : JSONWebKeySet) (ks : KeyStore) : KeyStore :=
  (set, s) :: ks.filter (fun p => !(p.1 == set))

/-- Marking step of `createJWKS`: every generated key gets `Use="sig"`
(`for i, k := range keys.Keys { k.Use = "sig" ... }` in
`cmd/server/helper_keys.go`). -/
def sigAll (s : JSONWebKeySet) : JSONWebKeySet :=
  { keys := s.keys.map (fun k => { k with use := "sig" }) }

/-- Whether `kid` begins with the prefix `pfx`, character by character. -/
def kidHasPrefix (pfx kid : String) : Bool :=
  pfx.data.isPrefixOf kid.data

/-- Modelled from the spec: `jwk.FindKeyByPrefix` (not under src/) returns
the key whose kid begins with the requested prefix, if any. -/
def findKeyByPrefix (s : JSONWebKeySet) (pfx : String) : Option JWK :=
  s.keys.find? (fun k => kidHasPrefix pfx k.kid)

/-- Failure of `createOrGetJWK` after the single regeneration retry
(`ErrCannotProvisionSigningKey` in the spec, section 4.1). -/
inductive KeyError where
  | cannotProvisionSigningKey
deriving Repr, DecidableEq

/-- Function `createJWKS` from `cmd/server/helper_keys.go`: generate a fresh key set
(the RS256 generator's output is the abstract input `gen`), set `Use="sig"`
on every key, persist the set. -/
def createJWKS (gen : JSONWebKeySet) (set : String) (ks : KeyStore) :
    JSONWebKeySet × KeyStore :=
  (sigAll gen, addKeySet set (sigAll gen) ks)

/-- The first phase of `createOrGetJWK`: get the set; if missing or empty,
generate and persist a fresh one (lines 37-46 of
`cmd/server/helper_keys.go`). -/
def step1 (gen1 : JSONWebKeySet) (set : String) (ks : KeyStore) :
    JSONWebKeySet × KeyStore :=
  match getKeySet set ks with
  | .error .notFound => createJWKS gen1 set ks
  | .ok s => if s.keys.isEmpty then createJWKS gen1 set ks else (s, ks)

/-- Function `createOrGetJWK` from `cmd/server/helper_keys.go`: get the set; if
missing or empty, generate and persist a fresh one; return the key whose kid
begins with the prefix; if missing, regenerate exactly once and retry; if
still missing, fail. The two abstract generator outputs `gen1`, `gen2` stand
for the two possible `RS256Generator.Generate` calls. -/
def createOrGetJWK (gen1 gen2 : JSONWebKeySet) (set pfx : String)
    (ks : KeyStore) : Except KeyError (JWK × KeyStore) :=
  match findKeyByPrefix (step1 gen1 set ks).1 pfx with
  | some k => .ok (k, (step1 gen1 set ks).2)
  | none =>
    match findKeyByPrefix (createJWKS gen2 set (step1 gen1 set ks).2).1 pfx with
    | some k => .ok (k, (createJWKS gen2 set (step1 gen1 set ks).2).2)
    | none => .error .cannotProvisionSigningKey

/-- The generator output used on the first provisioning pass: the two RS256
halves `public:<uuid>` and `private:<uuid>` (spec section 4.1). -/
def exampleGen1 : JSONWebKeySet :=
  { keys := [{ kid := "public:uuid1", use := "" },
    { kid := "private:uuid1", use := "" }] }

/-- The generator output for the retry pass. -/
def exampleGen2 : JSONWebKeySet :=
  { keys := [{ kid := "public:uuid2", use := "" },
    { kid := "private:uuid2", use := "" }] }

/-- Searching a list mapped by a key-preserving function finds the image of
what `find?` finds on the original list. -/
theorem find_map_key_preserving {α : Type} (p : α → Bool) (f : α → α)
    (hf : ∀ x, p (f x) = p x) (l : List α) :
    (l.map f).find? p = (l.find? p).map f := by
  induction l with
  | nil => rfl
  | cons x xs ih =>
    by_cases hx : p x
    · simp [List.find?, hf, hx]
    · simp only [List.map_cons, List.find?]
      rw [hf x]
      simp [hx, ih]

/-- After invalidation, verifying the same authentication verifier again fails
with NotFound. -/
theorem verifyAuth_after_invalidate (m : Manager) (v : String)
    (r : AuthenticationRequest) (h : HandledAuthenticationRequest)
    (hr : m.authRequests.find? (fun q => q.verifier == v) = some r)
    (hh : m.handledAuthRequests.find? (fun x => x.challenge == r.challenge) = some h) :
    verifyAndInvalidateAuthenticationRequest v (invalidateAuth r.challenge m)
      = .error .notFound := by
  have hch : (h.challenge == r.challenge) = true := by
    have hp := List.find?_some hh
    simpa using hp
  have hkey : ∀ x : HandledAuthenticationRequest,
      ((if x.challenge == r.challenge then { x with wasUsed := true } else x).challenge
          == r.challenge) = (x.challenge == r.challenge) := by
    intro x
    by_cases hx : (x.challenge == r.challenge) = true
    · simp [hx]
    · simp [hx]
  unfold verifyAndInvalidateAuthenticationRequest invalidateAuth
  simp only [hr]
  rw [find_map_key_preserving _ _ hkey, hh]
  have hch2 : h.challenge = r.challenge := by simpa using hch
  simp [hch2]

/-- After invalidation, verifying the same consent verifier again fails with
NotFound. -/
theorem verifyConsent_after_invalidate (m : Manager) (v : String)
    (r : ConsentRequest) (h : HandledConsentRequest)
    (hr : m.consentRequests.find? (fun q => q.verifier == v) = some r)
    (hh : m.handledConsentRequests.find? (fun x => x.challenge == r.challenge) = some h) :
    verifyAndInvalidateConsentRequest v (invalidateConsent r.challenge m)
      = .error .notFound := by
  have hch : (h.challenge == r.challenge) = true := by
    have hp := List.find?_some hh
    simpa using hp
  have hkey : ∀ x : HandledConsentRequest,
      ((if x.challenge == r.challenge then { x with wasUsed := true } else x).challenge
          == r.challenge) = (x.challenge == r.challenge) := by
    intro x
    by_cases hx : (x.challenge == r.challenge) = true
    · simp [hx]
    · simp [hx]
  unfold verifyAndInvalidateConsentRequest invalidateConsent
  simp only [hr]
  rw [find_map_key_preserving _ _ hkey, hh]
  have hch2 : h.challenge = r.challenge := by simpa using hch
  simp [hch2]

/-- C1: For every verifier, at most one call to
`VerifyAndInvalidateAuthenticationRequest` or
`VerifyAndInvalidateConsentRequest` with that verifier ever succeeds: a first
call succeeds only if a handled record exists for the request with
`was_used=false`, it sets `was_used=true` and returns the request together
with its handled record, and every subsequent call with the same verifier
(and any call with an unknown verifier or without a handled record) fails
with NotFound. -/
theorem verify_and_invalidate_one_shot (m : Manager) (v : String) :
    (m.authRequests.find? (fun q => q.verifier == v) = none →
      verifyAndInvalidateAuthenticationRequest v m = .error .notFound)
    ∧ (∀ r, m.authRequests.find? (fun q => q.verifier == v) = some r →
        m.handledAuthRequests.find? (fun x => x.challenge == r.challenge) = none →
        verifyAndInvalidateAuthenticationRequest v m = .error .notFound)
    ∧ (∀ r h, m.authRequests.find? (fun q => q.verifier == v) = some r →
        m.handledAuthRequests.find? (fun x => x.challenge == r.challenge) = some h →
        h.wasUsed = true →
        verifyAndInvalidateAuthenticationRequest v m = .error .notFound)
    ∧ (∀ r h, m.authRequests.find? (fun q => q.verifier == v) = some r →
        m.handledAuthRequests.find? (fun x => x.challenge == r.challenge) = some h →
        h.wasUsed = false →
        verifyAndInvalidateAuthenticationRequest v m
            = .ok (r, { h with wasUsed := true }, invalidateAuth r.challenge m)
          ∧ verifyAndInvalidateAuthenticationRequest v (invalidateAuth r.challenge m)
            = .error .notFound)
    ∧ (m.consentRequests.find? (fun q => q.verifier == v) = none →
      verifyAndInvalidateConsentRequest v m = .error .notFound)
    ∧ (∀ r, m.consentRequests.find? (fun q => q.verifier == v) = some r →
        m.handledConsentRequests.find? (fun x => x.challenge == r.challenge) = none →
        verifyAndInvalidateConsentRequest v m = .error .notFound)
    ∧ (∀ r h, m.consentRequests.find? (fun q => q.verifier == v) = some r →
        m.handledConsentRequests.find? (fun x => x.challenge == r.challenge) = some h →
        h.wasUsed = true →
        verifyAndInvalidateConsentRequest v m = .error .notFound)
    ∧ (∀ r h, m.consentRequests.find? (fun q => q.verifier == v) = some r →
        m.handledConsentRequests.find? (fun x => x.challenge == r.challenge) = some h →
        h.wasUsed = false →
        verifyAndInvalidateConsentRequest v m
            = .ok (r, { h with wasUsed := true }, invalidateConsent r.challenge m)
          ∧ verifyAndInvalidateConsentRequest v (invalidateConsent r.challenge m)
            = .error .notFound) := by
  refine ⟨?_, ?_, ?_, ?_, ?_, ?_, ?_, ?_⟩
  · intro hr
    simp [verifyAndInvalidateAuthenticationRequest, hr]
  · intro r hr hh
    simp [verifyAndInvalidateAuthenticationRequest, hr, hh]
  · intro r h hr hh hused
    simp [verifyAndInvalidateAuthenticationRequest, hr, hh, hused]
  · intro r h hr hh hused
    constructor
    · simp [verifyAndInvalidateAuthenticationRequest, hr, hh, hused]
    · exact verifyAuth_after_invalidate m v r h hr hh
  · intro hr
    simp [verifyAndInvalidateConsentRequest, hr]
  · intro r hr hh
    simp [verifyAndInvalidateConsentRequest, hr, hh]
  · intro r h hr hh hused
    simp [verifyAndInvalidateConsentRequest, hr, hh, hused]
  · intro r h hr hh hused
    constructor
    · simp [verifyAndInvalidateConsentRequest, hr, hh, hused]
    · exact verifyConsent_after_invalidate m v r h hr hh

/-- Witness for C1: on the concrete store, the first verify of each verifier
succeeds and invalidates, the second fails with NotFound. -/
theorem verify_and_invalidate_one_shot_witness :
    (verifyAndInvalidateAuthenticationRequest "verifier1" exampleManager
        = .ok (exampleAuthRequest, { exampleHandledAuth with wasUsed := true },
            invalidateAuth exampleAuthRequest.challenge exampleManager)
      ∧ verifyAndInvalidateAuthenticationRequest "verifier1"
          (invalidateAuth exampleAuthRequest.challenge exampleManager)
        = .error .notFound)
    ∧ (verifyAndInvalidateConsentRequest "cverifier1" exampleManager
        = .ok (exampleConsentRequest, { exampleHandledConsent with wasUsed := true },
            invalidateConsent exampleConsentRequest.challenge exampleManager)
      ∧ verifyAndInvalidateConsentRequest "cverifier1"
          (invalidateConsent exampleConsentRequest.challenge exampleManager)
        = .error .notFound) :=
  ⟨(verify_and_invalidate_one_shot exampleManager "verifier1").2.2.2.1
      exampleAuthRequest exampleHandledAuth (by decide) (by decide) (by decide),
    (verify_and_invalidate_one_shot exampleManager "cverifier1").2.2.2.2.2.2.2
      exampleConsentRequest exampleHandledConsent (by decide) (by decide) (by decide)⟩

/-- C9: For every pair (client_id, subject), FindPreviouslyGrantedConsentRequests
returns only still-valid previously granted consents: any granted consent whose
remember_for duration has elapsed since it was granted (remember_for > 0 and
granted longer than remember_for seconds ago) is excluded from the result,
while remember_for=0 entries never expire. -/
theorem find_previously_granted_discards_expired
    (clientId subject : String) (now : Nat) (m : Manager) :
    (∀ g ∈ findPreviouslyGrantedConsentRequests clientId subject now m,
      g ∈ m.grants ∧ g.clientId = clientId ∧ g.subject = subject ∧
        (g.rememberFor = 0 ∨ now ≤ g.grantedAt + g.rememberFor))
    ∧ (∀ g ∈ m.grants, 0 < g.rememberFor → g.grantedAt + g.rememberFor < now →
        g ∉ findPreviouslyGrantedConsentRequests clientId subject now m)
    ∧ (∀ g ∈ m.grants, g.clientId = clientId → g.subject = subject →
        g.rememberFor = 0 →
        g ∈ findPreviouslyGrantedConsentRequests clientId subject now m) := by
  unfold findPreviouslyGrantedConsentRequests
  refine ⟨?_, ?_, ?_⟩
  · intro g hg
    simp only [List.mem_filter, Bool.and_eq_true, beq_iff_eq, Bool.or_eq_true,
      Nat.ble_eq] at hg
    exact ⟨hg.1, hg.2.1.1, hg.2.1.2, hg.2.2⟩
  · intro g _ hpos hexp hmem
    simp only [List.mem_filter, Bool.and_eq_true, beq_iff_eq, Bool.or_eq_true,
      Nat.ble_eq] at hmem
    rcases hmem.2.2 with h0 | hle
    · omega
    · omega
  · intro g hg hc hs h0
    simp only [List.mem_filter, Bool.and_eq_true, beq_iff_eq, Bool.or_eq_true,
      Nat.ble_eq]
    exact ⟨hg, ⟨hc, hs⟩, Or.inl h0⟩

/-- Witness for C9: at time 200 the expired grant is filtered out and the
`remember_for = 0` grant is kept. -/
theorem find_previously_granted_discards_expired_witness :
    exampleGrantExpired ∉
        findPreviouslyGrantedConsentRequests "client1" "subject1" 200 exampleGrantManager
      ∧ exampleGrantFresh ∈
        findPreviouslyGrantedConsentRequests "client1" "subject1" 200 exampleGrantManager :=
  ⟨(find_previously_granted_discards_expired "client1" "subject1" 200
        exampleGrantManager).2.1 exampleGrantExpired (by decide) (by decide) (by decide),
    (find_previously_granted_discards_expired "client1" "subject1" 200
        exampleGrantManager).2.2 exampleGrantFresh (by decide) rfl rfl rfl⟩

/-- The `RequireLogin` state never completes the flow: it redirects or fails. -/
theorem requireLogin_ne_completed (inp : AuthorizeInput) (mint : Mint) (now : Nat)
    (m : Manager) (r : ConsentRequest) (h : HandledConsentRequest) :
    (requireLogin inp mint now m).1 ≠ FlowResult.completed r h := by
  unfold requireLogin
  dsimp only
  split_ifs <;> simp

/-- The `RequireConsent` state never completes the flow: it redirects or fails. -/
theorem requireConsent_ne_completed (inp : AuthorizeInput) (mint : Mint) (now : Nat)
    (subject loginChallenge : String) (m : Manager) (r : ConsentRequest)
    (h : HandledConsentRequest) :
    (requireConsent inp mint now subject loginChallenge m).1
      ≠ FlowResult.completed r h := by
  unfold requireConsent
  dsimp only
  split_ifs <;> simp

/-- The `LoginReturn` state never completes the flow by itself. -/
theorem loginReturn_ne_completed (inp : AuthorizeInput) (mint : Mint) (now : Nat)
    (m : Manager) (r : ConsentRequest) (h : HandledConsentRequest) :
    (loginReturn inp mint now m).1 ≠ FlowResult.completed r h := by
  unfold loginReturn
  cases hv : verifyAndInvalidateAuthenticationRequest inp.loginVerifier m with
  | error e => simp
  | ok t =>
    obtain ⟨r1, h1, m1⟩ := t
    dsimp only
    cases herr : h1.error with
    | some e =>
      simp only [herr]
      split_ifs <;> simp
    | none =>
      simp only [herr]
      split_ifs <;> first
        | exact requireConsent_ne_completed inp mint now h1.subject r1.challenge _ r h
        | simp

/-- A completed `ConsentReturn` passed the granted-scope subset check. -/
theorem consentReturn_completed_subset (inp : AuthorizeInput) (now : Nat)
    (m : Manager) (r : ConsentRequest) (h : HandledConsentRequest) (m2 : Manager)
    (heq : consentReturn inp now m = (.completed r h, m2)) :
    scopeSubset h.grantedScope r.requestedScope = true := by
  unfold consentReturn at heq
  cases hv : verifyAndInvalidateConsentRequest inp.consentVerifier m with
  | error e => rw [hv] at heq; simp at heq
  | ok t =>
    obtain ⟨r1, h1, m1⟩ := t
    rw [hv] at heq
    dsimp only at heq
    cases herr : h1.error with
    | some e =>
      simp only [herr] at heq
      split_ifs at heq <;> simp at heq
    | none =>
      simp only [herr] at heq
      split_ifs at heq with hc hsub hskip hrem
      · simp at heq
      · simp at heq
      · simp at heq
      · rw [Prod.mk.injEq] at heq
        obtain ⟨hfst, -⟩ := heq
        rw [FlowResult.completed.injEq] at hfst
        obtain ⟨hre, hhe⟩ := hfst
        subst hre
        subst hhe
        simpa using hsub
      · rw [Prod.mk.injEq] at heq
        obtain ⟨hfst, -⟩ := heq
        rw [FlowResult.completed.injEq] at hfst
        obtain ⟨hre, hhe⟩ := hfst
        subst hre
        subst hhe
        simpa using hsub

/-- C2: For every completed authorization flow, the granted scope of the
resulting HandledConsentRequest is a subset of the requested scope of its
ConsentRequest; the strategy enforces handled.granted_scope ⊆
request.requested_scope when processing the consent verifier. -/
theorem granted_scope_subset_of_requested (inp : AuthorizeInput) (mint : Mint)
    (now : Nat) (m : Manager) (r : ConsentRequest) (h : HandledConsentRequest)
    (m2 : Manager)
    (heq : handleOAuth2AuthorizationRequest inp mint now m = (.completed r h, m2)) :
    scopeSubset h.grantedScope r.requestedScope = true := by
  unfold handleOAuth2AuthorizationRequest at heq
  split_ifs at heq with h1 h2 h3
  · exact absurd (congrArg Prod.fst heq) (requireLogin_ne_completed inp mint now m r h)
  · simp at heq
  · exact absurd (congrArg Prod.fst heq) (loginReturn_ne_completed inp mint now m r h)
  · exact consentReturn_completed_subset inp now m r h m2 heq

/-- C3: For every handled login or consent record, skip=true implies
remember=false: an accept call (PUT .../accept) with remember=true on a
request whose skip=true is rejected with HTTP 400 (the error return means no
handled record usable for verification is produced), and the same condition
is rejected again at verify time in `LoginReturn` / `ConsentReturn`. -/
theorem skip_implies_no_remember_rejected (m : Manager) :
    (∀ challenge p r, getAuthenticationRequest challenge m = .ok r →
        r.skip = true → p.remember = true →
        acceptLoginRequest challenge p m = .error .badRequest
          ∧ ApiError.badRequest.statusCode = 400)
    ∧ (∀ challenge p r, getConsentRequest challenge m = .ok r →
        r.skip = true → p.remember = true →
        acceptConsentRequest challenge p m = .error .badRequest)
    ∧ (∀ (inp : AuthorizeInput) (mint : Mint) (now : Nat) r h m1,
        verifyAndInvalidateAuthenticationRequest inp.loginVerifier m = .ok (r, h, m1) →
        inp.loginCsrfCookie = some r.csrf → h.error = none →
        r.skip = true → h.subject = r.subject → h.remember = true →
        loginReturn inp mint now m = (.failed .badRequest, m1))
    ∧ (∀ (inp : AuthorizeInput) (now : Nat) r h m1,
        verifyAndInvalidateConsentRequest inp.consentVerifier m = .ok (r, h, m1) →
        inp.consentCsrfCookie = some r.csrf →
        scopeSubset h.grantedScope r.requestedScope = true →
        r.skip = true → h.remember = true →
        consentReturn inp now m = (.failed .badRequest, m1)) := by
  refine ⟨?_, ?_, ?_, ?_⟩
  · intro challenge p r hget hskip hrem
    refine ⟨?_, rfl⟩
    unfold acceptLoginRequest
    rw [hget]
    by_cases hs : (p.subject == r.subject) = true
    · simp [hskip, hrem, hs]
    · simp [hskip, hrem, hs]
  · intro challenge p r hget hskip hrem
    unfold acceptConsentRequest
    rw [hget]
    simp [hskip, hrem]
  · intro inp mint now r h m1 hver hcsrf herr hskip hsubj hrem
    unfold loginReturn
    rw [hver]
    simp [hcsrf, herr, hskip, hsubj, hrem]
  · intro inp now r h m1 hver hcsrf hsub hskip hrem
    unfold consentReturn
    rw [hver]
    simp [hcsrf, hsub, hskip, hrem]

/-- Witness for C3: accepting with remember=true on the skipped login and
consent requests fails with 400, and the verify-time checks reject the
illegally remembered handled records. -/
theorem skip_implies_no_remember_rejected_witness :
    (acceptLoginRequest "challenge2"
        { subject := "subject1", remember := true, rememberFor := 0, acr := "1" }
        exampleSkipManager = .error .badRequest
      ∧ ApiError.badRequest.statusCode = 400)
    ∧ acceptConsentRequest "cchallenge2"
        { grantScope := ["scopea1"], remember := true, rememberFor := 0,
          session := { accessToken := [], idToken := [] } }
        exampleSkipManager = .error .badRequest
    ∧ loginReturn exampleSkipLoginInput exampleMint 1000 exampleSkipManager
        = (.failed .badRequest, invalidateAuth "challenge2" exampleSkipManager)
    ∧ consentReturn exampleSkipConsentInput 1000 exampleSkipManager
        = (.failed .badRequest, invalidateConsent "cchallenge2" exampleSkipManager) :=
  ⟨(skip_implies_no_remember_rejected exampleSkipManager).1 "challenge2"
      { subject := "subject1", remember := true, rememberFor := 0, acr := "1" }
      exampleSkippedAuthRequest (by decide) (by decide) (by decide),
    (skip_implies_no_remember_rejected exampleSkipManager).2.1 "cchallenge2"
      { grantScope := ["scopea1"], remember := true, rememberFor := 0,
        session := { accessToken := [], idToken := [] } }
      exampleSkippedConsentRequest (by decide) (by decide) (by decide),
    (skip_implies_no_remember_rejected exampleSkipManager).2.2.1
      exampleSkipLoginInput exampleMint 1000 exampleSkippedAuthRequest
      { exampleSkipHandledAuth with wasUsed := true }
      (invalidateAuth "challenge2" exampleSkipManager) (by decide) (by decide)
      (by decide) (by decide) (by decide) (by decide),
    (skip_implies_no_remember_rejected exampleSkipManager).2.2.2
      exampleSkipConsentInput 1000 exampleSkippedConsentRequest
      { exampleSkipHandledConsent with wasUsed := true }
      (invalidateConsent "cchallenge2" exampleSkipManager) (by decide) (by decide)
      (by decide) (by decide) (by decide)⟩

/-- C4: For every login request with skip=true, accepting it with a subject
different from the request's subject fails with HTTP 400 and returns no
redirect_to (the call errors); consequently every successfully handled login
accept on a skipped request has handled.subject equal to request.subject. -/
theorem skip_login_subject_must_match (m : Manager) :
    (∀ challenge p r, getAuthenticationRequest challenge m = .ok r →
        r.skip = true → (p.subject == r.subject) = false →
        acceptLoginRequest challenge p m = .error .badRequest
          ∧ ApiError.badRequest.statusCode = 400)
    ∧ (∀ challenge p r red m1, getAuthenticationRequest challenge m = .ok r →
        r.skip = true → acceptLoginRequest challenge p m = .ok (red, m1) →
        p.subject = r.subject
          ∧ (mkHandledLogin challenge p).subject = r.subject
          ∧ m1.handledAuthRequests.find? (fun x => x.challenge == challenge)
              = some (mkHandledLogin challenge p)) := by
  constructor
  · intro challenge p r hget hskip hne
    refine ⟨?_, rfl⟩
    unfold acceptLoginRequest
    rw [hget]
    simp [hskip, hne]
  · intro challenge p r red m1 hget hskip hacc
    unfold acceptLoginRequest at hacc
    rw [hget] at hacc
    dsimp only at hacc
    split_ifs at hacc with h1 h2
    · have hsubj : p.subject = r.subject := by
        rw [hskip] at h1
        simpa using h1
      refine ⟨hsubj, hsubj, ?_⟩
      have hpair := Except.ok.inj hacc
      have hm1 := congrArg Prod.snd hpair
      dsimp only at hm1
      rw [← hm1]
      unfold putHandledAuth
      simp [List.find?, mkHandledLogin]

/-- Witness for C4: on the skipped request, accepting with a different
subject fails with 400; accepting with the matching subject succeeds and
stores a handled record whose subject equals the request's. -/
theorem skip_login_subject_must_match_witness :
    (acceptLoginRequest "challenge2" exampleAcceptMismatch exampleSkipManager
        = .error .badRequest
      ∧ ApiError.badRequest.statusCode = 400)
    ∧ (exampleAcceptMatch.subject = exampleSkippedAuthRequest.subject
      ∧ (mkHandledLogin "challenge2" exampleAcceptMatch).subject
          = exampleSkippedAuthRequest.subject
      ∧ (putHandledAuth (mkHandledLogin "challenge2" exampleAcceptMatch)
            exampleSkipManager).handledAuthRequests.find?
          (fun x => x.challenge == "challenge2")
          = some (mkHandledLogin "challenge2" exampleAcceptMatch)) :=
  ⟨(skip_login_subject_must_match exampleSkipManager).1 "challenge2"
      exampleAcceptMismatch exampleSkippedAuthRequest (by decide) (by decide)
      (by decide),
    (skip_login_subject_must_match exampleSkipManager).2 "challenge2"
      exampleAcceptMatch exampleSkippedAuthRequest
      "/oauth2/auth?login_verifier=verifier2"
      (putHandledAuth (mkHandledLogin "challenge2" exampleAcceptMatch)
        exampleSkipManager) (by decide) (by decide) (by decide)⟩

/-- C5: For every call to HandleOAuth2AuthorizationRequest where the supplied
login_verifier or consent_verifier is unknown to the store, or where a
consent_verifier is supplied without a login having occurred, the result is
ErrAccessDenied; the store's NotFound is never surfaced directly for a
verifier lookup (the strategy's error type `OAuthError` has no NotFound at
all: every failed verifier lookup is mapped to `accessDenied`). -/
theorem unknown_verifier_access_denied (inp : AuthorizeInput) (mint : Mint)
    (now : Nat) (m : Manager) :
    ((inp.loginVerifier == "") = false → (inp.consentVerifier == "") = true →
      verifyAndInvalidateAuthenticationRequest inp.loginVerifier m
        = .error .notFound →
      handleOAuth2AuthorizationRequest inp mint now m = (.failed .accessDenied, m))
    ∧ ((inp.loginVerifier == "") = false → (inp.consentVerifier == "") = false →
      verifyAndInvalidateConsentRequest inp.consentVerifier m
        = .error .notFound →
      handleOAuth2AuthorizationRequest inp mint now m = (.failed .accessDenied, m))
    ∧ ((inp.loginVerifier == "") = true → (inp.consentVerifier == "") = false →
      handleOAuth2AuthorizationRequest inp mint now m
        = (.failed .accessDenied, m)) := by
  refine ⟨?_, ?_, ?_⟩
  · intro hlv hcv hver
    unfold handleOAuth2AuthorizationRequest loginReturn
    rw [hver]
    simp [hlv, hcv]
  · intro hlv hcv hver
    unfold handleOAuth2AuthorizationRequest consentReturn
    rw [hver]
    simp [hlv, hcv]
  · intro hlv hcv
    unfold handleOAuth2AuthorizationRequest
    simp [hlv, hcv]

/-- Witness for C5: the three access-denied cases on the empty store. -/
theorem unknown_verifier_access_denied_witness :
    handleOAuth2AuthorizationRequest exampleInvalidLoginInput exampleMint 1000
        Manager.empty = (.failed .accessDenied, Manager.empty)
    ∧ handleOAuth2AuthorizationRequest exampleInvalidConsentInput exampleMint 1000
        Manager.empty = (.failed .accessDenied, Manager.empty)
    ∧ handleOAuth2AuthorizationRequest exampleConsentOnlyInput exampleMint 1000
        Manager.empty = (.failed .accessDenied, Manager.empty) :=
  ⟨(unknown_verifier_access_denied exampleInvalidLoginInput exampleMint 1000
      Manager.empty).1 (by decide) (by decide) (by decide),
    (unknown_verifier_access_denied exampleInvalidConsentInput exampleMint 1000
      Manager.empty).2.1 (by decide) (by decide) (by decide),
    (unknown_verifier_access_denied exampleConsentOnlyInput exampleMint 1000
      Manager.empty).2.2 (by decide) (by decide)⟩

/-- C6: For every authorization request whose prompt parameter contains none
and for which no authentication session exists, HandleOAuth2AuthorizationRequest
fails with ErrLoginRequired and the browser is never redirected to the login
UI: the result is `failed`, not `redirectToLogin`, and the store is unchanged
(no AuthenticationRequest is persisted). -/
theorem prompt_none_without_session_login_required (inp : AuthorizeInput)
    (mint : Mint) (now : Nat) (m : Manager)
    (hlv : inp.loginVerifier = "") (hcv : inp.consentVerifier = "")
    (hsess : inp.sessionCookie = none)
    (hprompt : inp.prompt.contains "none" = true) :
    handleOAuth2AuthorizationRequest inp mint now m
      = (.failed .loginRequired, m) := by
  have hmem : "none" ∈ inp.prompt := by simpa using hprompt
  unfold handleOAuth2AuthorizationRequest requireLogin
  simp [hlv, hcv, hsess, hmem]

/-- Witness for C6: prompt=none with no session fails with login_required on
the concrete store and persists nothing. -/
theorem prompt_none_without_session_login_required_witness :
    handleOAuth2AuthorizationRequest examplePromptNoneInput exampleMint 1000
      exampleSkipManager = (.failed .loginRequired, exampleSkipManager) :=
  prompt_none_without_session_login_required examplePromptNoneInput exampleMint
    1000 exampleSkipManager rfl rfl rfl (by decide)

/-- C7: For every authorization request with max_age supplied where now minus
the session's authenticated_at exceeds max_age seconds, the login request is
created with skip=false while the consent-skip decision for the same flow may
still be true (it does not depend on the login skip); if additionally prompt
contains none, the flow fails with ErrLoginRequired instead of redirecting. -/
theorem max_age_forces_reauthentication (inp : AuthorizeInput) (mint : Mint)
    (now : Nat) (m : Manager) (s : AuthenticationSession) (ma : Nat)
    (hlv : inp.loginVerifier = "") (hcv : inp.consentVerifier = "")
    (hsess : inp.sessionCookie = some s) (hma : inp.maxAge = some ma)
    (hold : Nat.blt ma (now - s.authenticatedAt) = true) :
    (inp.prompt.contains "none" = false →
      handleOAuth2AuthorizationRequest inp mint now m
        = (.redirectToLogin
            { challenge := mint.loginChallenge, verifier := mint.loginVerifier,
              clientId := inp.clientId, requestedScope := inp.scopes,
              subject := s.subject, skip := false, csrf := mint.loginCsrf },
          { m with authRequests :=
              { challenge := mint.loginChallenge, verifier := mint.loginVerifier,
                clientId := inp.clientId, requestedScope := inp.scopes,
                subject := s.subject, skip := false, csrf := mint.loginCsrf }
                :: m.authRequests }))
    ∧ (inp.prompt.contains "none" = true →
      handleOAuth2AuthorizationRequest inp mint now m
        = (.failed .loginRequired, m))
    ∧ (∀ subject m2, scopeSubset inp.scopes
          ((findPreviouslyGrantedConsentRequests inp.clientId subject now m2).map
            (fun g => g.grantedScope)).flatten = true →
        inp.prompt.contains "consent" = false → inp.responseTypes = ["code"] →
        computeSkipConsent inp subject now m2 = true) := by
  refine ⟨?_, ?_, ?_⟩
  · intro hnone
    have hmem : "none" ∉ inp.prompt := by simpa using hnone
    unfold handleOAuth2AuthorizationRequest requireLogin
    simp [hlv, hcv, hsess, hma, hold, hmem]
  · intro hnone
    have hmem : "none" ∈ inp.prompt := by simpa using hnone
    unfold handleOAuth2AuthorizationRequest requireLogin
    simp [hlv, hcv, hsess, hma, hold, hmem]
  · intro subject m2 hsub hcons hrts
    have hmem : "consent" ∉ inp.prompt := by simpa using hcons
    unfold computeSkipConsent
    simp [hsub, hmem, hrts]

/-- Witness for C7: at time 1000 with max_age=1, the login request is minted
with skip=false; with prompt=none the flow fails with login_required; and the
consent-skip decision is still true for the remembered grant. -/
theorem max_age_forces_reauthentication_witness :
    handleOAuth2AuthorizationRequest exampleMaxAgeInput exampleMint 1000
        exampleSkipManager
      = (.redirectToLogin
          { challenge := "lc", verifier := "lv", clientId := "client1",
            requestedScope := ["scopea1", "scopeb1"], subject := "subject1",
            skip := false, csrf := "lcsrf" },
        { exampleSkipManager with authRequests :=
            { challenge := "lc", verifier := "lv", clientId := "client1",
              requestedScope := ["scopea1", "scopeb1"], subject := "subject1",
              skip := false, csrf := "lcsrf" } :: exampleSkipManager.authRequests })
    ∧ handleOAuth2AuthorizationRequest exampleMaxAgeNoneInput exampleMint 1000
        exampleSkipManager = (.failed .loginRequired, exampleSkipManager)
    ∧ computeSkipConsent exampleMaxAgeInput "subject1" 1000
        exampleGrantedManager = true :=
  ⟨(max_age_forces_reauthentication exampleMaxAgeInput exampleMint 1000
      exampleSkipManager exampleSession 1 rfl rfl rfl rfl (by decide)).1 (by decide),
    (max_age_forces_reauthentication exampleMaxAgeNoneInput exampleMint 1000
      exampleSkipManager exampleSession 1 rfl rfl rfl rfl (by decide)).2.1 (by decide),
    (max_age_forces_reauthentication exampleMaxAgeInput exampleMint 1000
      exampleSkipManager exampleSession 1 rfl rfl rfl rfl (by decide)).2.2 "subject1"
      exampleGrantedManager (by decide) (by decide) rfl⟩

/-- Witness for C2: the concrete flow completes and its granted scope is
contained in the requested scope. -/
theorem granted_scope_subset_of_requested_witness :
    handleOAuth2AuthorizationRequest exampleConsentReturnInput exampleMint 1000
        exampleManager
      = (.completed exampleConsentRequest
          { exampleHandledConsent with wasUsed := true }, exampleCompletedManager)
    ∧ scopeSubset ({ exampleHandledConsent with wasUsed := true }).grantedScope
        exampleConsentRequest.requestedScope = true :=
  ⟨by decide,
    granted_scope_subset_of_requested exampleConsentReturnInput exampleMint 1000
      exampleManager exampleConsentRequest
      { exampleHandledConsent with wasUsed := true } exampleCompletedManager
      (by decide)⟩

/-- C8: CreateOrGetSigningKey (createOrGetJWK): if GetKeySet reports the set
missing or the set is empty, a fresh RS256 key set is generated with every
key's Use field set to "sig" and persisted; the key whose kid begins with
the requested prefix is then returned; if no such key is found, the set is
regenerated exactly once and the lookup retried; if the key is still missing
after that single retry, the call fails with ErrCannotProvisionSigningKey. -/
theorem createOrGetJWK_provisioning (gen1 gen2 : JSONWebKeySet)
    (set pfx : String) (ks : KeyStore) :
    (∀ k ∈ (sigAll gen1).keys, k.use = "sig")
    ∧ (getKeySet set ks = .error .notFound →
      createOrGetJWK gen1 gen2 set pfx ks
        = match findKeyByPrefix (sigAll gen1) pfx with
          | some k => .ok (k, addKeySet set (sigAll gen1) ks)
          | none =>
            match findKeyByPrefix (sigAll gen2) pfx with
            | some k => .ok (k, addKeySet set (sigAll gen2)
                (addKeySet set (sigAll gen1) ks))
            | none => .error .cannotProvisionSigningKey)
    ∧ (∀ s, getKeySet set ks = .ok s → s.keys = [] →
      createOrGetJWK gen1 gen2 set pfx ks
        = match findKeyByPrefix (sigAll gen1) pfx with
          | some k => .ok (k, addKeySet set (sigAll gen1) ks)
          | none =>
            match findKeyByPrefix (sigAll gen2) pfx with
            | some k => .ok (k, addKeySet set (sigAll gen2)
                (addKeySet set (sigAll gen1) ks))
            | none => .error .cannotProvisionSigningKey)
    ∧ (∀ s, getKeySet set ks = .ok s → s.keys ≠ [] →
      createOrGetJWK gen1 gen2 set pfx ks
        = match findKeyByPrefix s pfx with
          | some k => .ok (k, ks)
          | none =>
            match findKeyByPrefix (sigAll gen2) pfx with
            | some k => .ok (k, addKeySet set (sigAll gen2) ks)
            | none => .error .cannotProvisionSigningKey)
    ∧ (∀ k ks2, createOrGetJWK gen1 gen2 set pfx ks = .ok (k, ks2) →
      kidHasPrefix pfx k.kid = true) := by
  refine ⟨?_, ?_, ?_, ?_, ?_⟩
  · intro k hk
    unfold sigAll at hk
    simp only [List.mem_map] at hk
    obtain ⟨k0, -, hk0⟩ := hk
    rw [← hk0]
  · intro hget
    unfold createOrGetJWK step1
    rw [hget]
    simp [createJWKS]
  · intro s hget hempty
    unfold createOrGetJWK step1
    rw [hget]
    simp [hempty, createJWKS]
  · intro s hget hnonempty
    unfold createOrGetJWK step1
    rw [hget]
    have hne : s.keys.isEmpty = false := by
      cases hk : s.keys with
      | nil => exact absurd hk hnonempty
      | cons a l => simp [hk]
    simp [hne, createJWKS]
  · intro k ks2 hok
    unfold createOrGetJWK at hok
    cases hf1 : findKeyByPrefix (step1 gen1 set ks).1 pfx with
    | some k1 =>
      rw [hf1] at hok
      unfold findKeyByPrefix at hf1
      have hk1 := List.find?_some hf1
      have hkk : k1 = k := by
        have hp := Except.ok.inj hok
        exact congrArg Prod.fst hp
      rw [← hkk]
      simpa using hk1
    | none =>
      rw [hf1] at hok
      cases hf2 : findKeyByPrefix (createJWKS gen2 set (step1 gen1 set ks).2).1 pfx with
      | some k2 =>
        rw [hf2] at hok
        unfold findKeyByPrefix at hf2
        have hk2 := List.find?_some hf2
        have hkk : k2 = k := by
          have hp := Except.ok.inj hok
          exact congrArg Prod.fst hp
        rw [← hkk]
        simpa using hk2
      | none =>
        rw [hf2] at hok
        exact absurd hok (by simp)

/-- Witness for C8: provisioning the missing ID-token set returns the
`public:` key with `Use="sig"`, after persisting the freshly generated set. -/
theorem createOrGetJWK_provisioning_witness :
    createOrGetJWK exampleGen1 exampleGen2 "hydra.openid.id-token" "public" []
      = .ok ({ kid := "public:uuid1", use := "sig" },
          addKeySet "hydra.openid.id-token" (sigAll exampleGen1) [])
    ∧ kidHasPrefix "public" "public:uuid1" = true := by
  constructor
  · have hb := (createOrGetJWK_provisioning exampleGen1 exampleGen2
      "hydra.openid.id-token" "public" []).2.1 (by decide)
    rw [hb]
    decide
  · exact (createOrGetJWK_provisioning exampleGen1 exampleGen2
      "hydra.openid.id-token" "public" []).2.2.2.2
      { kid := "public:uuid1", use := "sig" }
      (addKeySet "hydra.openid.id-token" (sigAll exampleGen1) []) (by decide)

end Hydra
